import Mathlib

/-!
Verification of the Fathom webhook ingestion layer (`api/webhook.py`).

The Python module is shallowly embedded as executable Lean definitions:

* bytes are `List Nat` (each element a byte value);
* JSON values produced by `json.loads` are the inductive type `JVal`
  (numbers restricted to integers — no claim touches non-integral numbers);
* functions that can raise a Python exception return `Option`/`Except`,
  with `none`/`.error` marking the raised exception;
* the ambient world (clock, environment variables, subprocess results,
  filesystem outcomes) is passed explicitly as data;
* the stdlib HMAC-SHA256/base64-digest computation
  (`base64.b64encode(hmac.new(key, msg, sha256).digest())`) is an external
  primitive of the code and is modelled as an explicit function parameter
  `mac : List Nat → String → String` (key bytes and message to digest text);
  every theorem quantifies over it, so nothing depends on its internals.

Definitions follow the source names and control flow of `api/webhook.py`.
-/

/-- JSON-like Python values, as produced by `json.loads` on webhook bodies. -/
inductive JVal where
  | jnull
  | jbool (b : Bool)
  | jnum (n : Int)
  | jstr (s : String)
  | jarr (xs : List JVal)
  | jobj (kvs : List (String × JVal))

/-- Lookup in a Python dict (JSON objects have unique keys). `dict.get(k)`. -/
def alist (k : String) : List (String × JVal) → Option JVal
  | [] => none
  | (k2, v) :: rest => if k2 = k then some v else alist k rest

/-- Python truthiness of a JSON-derived value (`if url:` etc.). -/
def truthy : JVal → Bool
  | .jnull => false
  | .jbool b => b
  | .jnum n => n ≠ 0
  | .jstr s => s ≠ ""
  | .jarr xs => !xs.isEmpty
  | .jobj kvs => !kvs.isEmpty

/-- Whether a JSON-derived value is hashable in Python (may enter a `set`). -/
def hashable : JVal → Bool
  | .jarr _ => false
  | .jobj _ => false
  | _ => true

/-- Python `==` on the hashable JSON scalars (`True == 1` included).  The
containers always compare unequal here: the normalizer only compares values
after a hashability check, so container arguments never occur. -/
def pyEq : JVal → JVal → Bool
  | .jnull, .jnull => true
  | .jbool a, .jbool b => a == b
  | .jbool a, .jnum b => (if a then (1 : Int) else 0) == b
  | .jnum a, .jbool b => a == (if b then (1 : Int) else 0)
  | .jnum a, .jnum b => a == b
  | .jstr a, .jstr b => a == b
  | _, _ => false

/-- Lower-case hexadecimal digit. -/
def hexDigit (n : Nat) : Char :=
  if n < 10 then Char.ofNat (48 + n) else Char.ofNat (87 + n)

/-- One character of Python `repr` string output: backslash and the active
quote are escaped, tab/newline/carriage-return get their short escapes,
the remaining C0 controls and DEL the `\xHH` form.  (The printability
rules for non-ASCII code points are elided: no claim renders them.) -/
def pyCharEscape (q : Char) (c : Char) : String :=
  if c.toNat = 92 then "\\\\"
  else if c = q then String.mk [Char.ofNat 92, q]
  else if c.toNat = 9 then "\\t"
  else if c.toNat = 10 then "\\n"
  else if c.toNat = 13 then "\\r"
  else if c.toNat < 32 ∨ c.toNat = 127 then
    String.mk [Char.ofNat 92, 'x', hexDigit (c.toNat / 16), hexDigit (c.toNat % 16)]
  else String.singleton c

/-- Python `repr` of a string: single quotes, switching to double quotes
when the string holds a single quote but no double quote. -/
def pyStrRepr (s : String) : String :=
  let q := if s.data.contains (Char.ofNat 39) ∧ ¬ s.data.contains (Char.ofNat 34) then
      Char.ofNat 34 else Char.ofNat 39
  String.singleton q ++ String.join (s.data.map (pyCharEscape q)) ++ String.singleton q

mutual

/-- Python `repr` of a JSON-derived value (shape used by `str` on
containers); single quotes are always used for strings. -/
def pyRepr : JVal → String
  | .jnull => "None"
  | .jbool true => "True"
  | .jbool false => "False"
  | .jnum n => toString n
  | .jstr s => pyStrRepr s
  | .jarr xs => "[" ++ pyReprList xs ++ "]"
  | .jobj kvs => "\x7b" ++ pyReprObj kvs ++ "\x7d"

/-- Comma-joined `repr`s of list elements. -/
def pyReprList : List JVal → String
  | [] => ""
  | [x] => pyRepr x
  | x :: y :: xs => pyRepr x ++ ", " ++ pyReprList (y :: xs)

/-- Comma-joined `repr`s of dict items. -/
def pyReprObj : List (String × JVal) → String
  | [] => ""
  | [(k, v)] => pyStrRepr k ++ ": " ++ pyRepr v
  | (k, v) :: kv2 :: kvs =>
      pyStrRepr k ++ ": " ++ pyRepr v ++ ", " ++ pyReprObj (kv2 :: kvs)

end

/-- Python `str()` of a JSON-derived value. -/
def pyStr : JVal → String
  | .jstr s => s
  | v => pyRepr v

-- ---------------------------------------------------------------------------
-- String / byte utilities (Python stdlib behaviour on the exercised inputs)
-- ---------------------------------------------------------------------------

/-- Python `int(s)` on a decimal string: optional sign then digits.
(`int()` additionally strips whitespace and allows `_` separators; those
forms are not exercised by the webhook code paths modelled here.) -/
def parseInt (s : String) : Option Int :=
  let core : List Char → Option Nat := fun ds =>
    if ds = [] ∨ ¬ ds.all Char.isDigit then none
    else some (ds.foldl (fun a c => a * 10 + (c.toNat - 48)) 0)
  match s.data with
  | '-' :: rest => (core rest).map (fun n => -(n : Int))
  | '+' :: rest => (core rest).map (fun n => (n : Int))
  | cs => (core cs).map (fun n => (n : Int))

/-- Split a character list at every occurrence of `c`, keeping empty pieces
(the behaviour of Python `str.split(sep)` with an explicit separator). -/
def splitOnChar (c : Char) : List Char → List (List Char)
  | [] => [[]]
  | a :: rest =>
    let r := splitOnChar c rest
    if a = c then [] :: r
    else
      match r with
      | g :: gs => (a :: g) :: gs
      | [] => [[a]]

/-- Python `s.split(sep)` for a one-character separator. -/
def splitStr (c : Char) (s : String) : List String :=
  (splitOnChar c s.data).map String.mk

/-- Characters before / after the first occurrence of `c`; `none` if absent. -/
def breakAtChar (c : Char) : List Char → Option (List Char × List Char)
  | [] => none
  | a :: rest =>
    if a = c then some ([], rest)
    else (breakAtChar c rest).map (fun p => (a :: p.1, p.2))

/-- Python `entry.split(",", 1)` when it yields two parts: the text before
the first comma and everything after it; `none` when no comma occurs. -/
def firstCommaSplit (s : String) : Option (String × String) :=
  (breakAtChar ',' s.data).map (fun p => (String.mk p.1, String.mk p.2))

/-- Python `s.removeprefix(pre)`. -/
def removePrefixStr (s pre : String) : String :=
  if pre.data.isPrefixOf s.data then String.mk (s.data.drop pre.data.length) else s

/-- Python `s.strip(c)` for a single strip character. -/
def stripChar (c : Char) (s : String) : String :=
  String.mk (((s.data.dropWhile (· = c)).reverse.dropWhile (· = c)).reverse)

/-- Value of a character in the standard base64 alphabet. -/
def b64Val (c : Char) : Option Nat :=
  let n := c.toNat
  if 65 ≤ n ∧ n ≤ 90 then some (n - 65)
  else if 97 ≤ n ∧ n ≤ 122 then some (n - 97 + 26)
  else if 48 ≤ n ∧ n ≤ 57 then some (n - 48 + 52)
  else if n = 43 then some 62
  else if n = 47 then some 63
  else none

/-- Decode base64 groups of four characters; `=` is accepted only as final
padding.  `none` models `binascii.Error`. -/
def b64Groups : List Char → Option (List Nat)
  | [] => some []
  | a :: b :: c :: d :: rest =>
    match b64Val a, b64Val b with
    | some va, some vb =>
      if rest = [] ∧ c = '=' ∧ d = '=' then
        some [va * 4 + vb / 16]
      else
        match b64Val c with
        | some vc =>
          if rest = [] ∧ d = '=' then
            some [va * 4 + vb / 16, (vb % 16) * 16 + vc / 4]
          else
            match b64Val d with
            | some vd =>
              (b64Groups rest).map (fun bs =>
                (va * 4 + vb / 16) :: ((vb % 16) * 16 + vc / 4) :: ((vc % 4) * 64 + vd) :: bs)
            | none => none
        | none => none
    | _, _ => none
  | _ => none

/-- Python `base64.b64decode` in its default non-validating mode: characters
outside the alphabet are discarded before decoding and the remaining length
must be correctly padded.  Modelled on that shape for well-formed inputs
(`=` only as final padding); `none` models the raised `binascii.Error`. -/
def b64decode (s : String) : Option (List Nat) :=
  b64Groups (s.data.filter (fun c => (b64Val c).isSome ∨ c = '='))

/-- Whether a byte is a UTF-8 continuation byte. -/
def isContByte (b : Nat) : Bool := 128 ≤ b ∧ b < 192

/-- Strict UTF-8 decoding of a byte list (overlong forms, surrogates and
out-of-range code points rejected, as CPython's `bytes.decode("utf-8")`
does); `none` models the raised `UnicodeDecodeError`. -/
def utf8DecodeAux : List Nat → Option (List Char)
  | [] => some []
  | b :: rest =>
    if b < 128 then
      (utf8DecodeAux rest).map (fun cs => Char.ofNat b :: cs)
    else if b < 194 then none
    else if b < 224 then
      match rest with
      | b1 :: rest1 =>
        if isContByte b1 then
          (utf8DecodeAux rest1).map (fun cs => Char.ofNat ((b - 192) * 64 + (b1 - 128)) :: cs)
        else none
      | [] => none
    else if b < 240 then
      match rest with
      | b1 :: b2 :: rest2 =>
        if isContByte b1 ∧ isContByte b2 then
          let cp := (b - 224) * 4096 + (b1 - 128) * 64 + (b2 - 128)
          if cp < 2048 ∨ (55296 ≤ cp ∧ cp ≤ 57343) then none
          else (utf8DecodeAux rest2).map (fun cs => Char.ofNat cp :: cs)
        else none
      | _ => none
    else if b < 245 then
      match rest with
      | b1 :: b2 :: b3 :: rest3 =>
        if isContByte b1 ∧ isContByte b2 ∧ isContByte b3 then
          let cp := (b - 240) * 262144 + (b1 - 128) * 4096 + (b2 - 128) * 64 + (b3 - 128)
          if cp < 65536 ∨ cp > 1114111 then none
          else (utf8DecodeAux rest3).map (fun cs => Char.ofNat cp :: cs)
        else none
      | _ => none
    else none

/-- `raw.decode("utf-8")`: `none` models the raised `UnicodeDecodeError`. -/
def utf8Decode (bs : List Nat) : Option String :=
  (utf8DecodeAux bs).map String.mk

-- ---------------------------------------------------------------------------
-- SIGNATURE VERIFICATION (webhook.py lines 47, 61-109)
-- ---------------------------------------------------------------------------

/-- `TIMESTAMP_TOLERANCE = 300  # 5 minutes`. -/
def TIMESTAMP_TOLERANCE : Nat := 300

/-- The three signature headers; the handler reads each with `""` as the
default, so a missing header and an empty one are indistinguishable
(exactly as in `do_POST`'s `sig_headers` dict). -/
structure SigHeaders where
  webhookId : String
  webhookTimestamp : String
  webhookSignature : String

/-- Whether every character of a string is ASCII. -/
def isAsciiStr (s : String) : Bool := s.data.all (fun c => c.toNat < 128)

/-- `hmac.compare_digest(a, b)` on two `str` arguments: constant-time
equality, but it raises `TypeError` (`none`) unless both strings are
ASCII-only — header values arrive latin-1-decoded and may not be. -/
def compare_digest (a b : String) : Option Bool :=
  if isAsciiStr a ∧ isAsciiStr b then some (a == b) else none

/-- The loop of `verify_signature` over the space-separated header entries:
split each entry at its first comma; on a `v1` tag, compare the value with
the expected digest via `compare_digest` and accept on first match.
`some false` is the fall-through return after the loop; `none` is a
`TypeError` escaping from `compare_digest` on a non-ASCII `v1` value. -/
def checkEntries (expected : String) : List String → Option Bool
  | [] => some false
  | e :: rest =>
    match firstCommaSplit e with
    | some (tag, v) =>
      if tag = "v1" then
        match compare_digest expected v with
        | none => none
        | some true => some true
        | some false => checkEntries expected rest
      else checkEntries expected rest
    | none => checkEntries expected rest

/-- Every `v1`-tagged entry value of the list is ASCII — exactly the
condition under which the entry loop cannot raise. -/
def entryValuesAscii (l : List String) : Bool :=
  l.all (fun e =>
    match firstCommaSplit e with
    | some (tag, v) => if tag = "v1" then isAsciiStr v else true
    | none => true)

/-- `verify_signature(raw_body, headers)` of webhook.py.

`secret_raw` is `os.environ.get("FATHOM_WEBHOOK_SECRET", "")`, `now` is
`int(time.time())`, `mac` is the stdlib base64-encoded HMAC-SHA256 digest
(key bytes, message text).  The result is `some b` for a returned boolean
and `none` when the function raises — `raw_body.decode("utf-8")` on line
95 (`UnicodeDecodeError` on a non-UTF-8 body) and `hmac.compare_digest` on
line 105 (`TypeError` on a non-ASCII `v1` entry value) are both outside
every `try` block. -/
def verify_signature (mac : List Nat → String → String) (secret_raw : String)
    (now : Int) (raw_body : List Nat) (headers : SigHeaders) : Option Bool :=
  if secret_raw = "" then some false
  else if headers.webhookId = "" ∨ headers.webhookTimestamp = "" ∨ headers.webhookSignature = "" then
    some false
  else
    match parseInt headers.webhookTimestamp with
    | none => some false
    | some ts =>
      if (now - ts).natAbs > TIMESTAMP_TOLERANCE then some false
      else
        match b64decode (removePrefixStr secret_raw "whsec_") with
        | none => some false
        | some secret_bytes =>
          match utf8Decode raw_body with
          | none => none
          | some bodyText =>
            let signed_content := headers.webhookId ++ "." ++ headers.webhookTimestamp ++ "." ++ bodyText
            let expected := mac secret_bytes signed_content
            checkEntries expected (splitStr ' ' headers.webhookSignature)

-- ---------------------------------------------------------------------------
-- PAYLOAD NORMALIZATION (webhook.py lines 127-172)
-- ---------------------------------------------------------------------------

/-- Whether a character list is a valid URL scheme (letter first, then
letters, digits, `+`, `-` or `.`), as `urllib.parse` recognises it. -/
def validScheme (cs : List Char) : Bool :=
  match cs with
  | [] => false
  | c :: rest => c.isAlpha && rest.all (fun d => d.isAlphanum ∨ d = '+' ∨ d = '-' ∨ d = '.')

/-- `urlsplit` removes every tab, carriage return and newline from the URL
before parsing (`_UNSAFE_URL_BYTES_TO_REMOVE`). -/
def stripUnsafe (cs : List Char) : List Char :=
  cs.filter (fun c => ¬ (c.toNat = 9 ∨ c.toNat = 13 ∨ c.toNat = 10))

/-- The characters before the first occurrence of `c` (all of them when
`c` is absent). -/
def cutAtChar (c : Char) (cs : List Char) : List Char :=
  match breakAtChar c cs with
  | some (pre, _) => pre
  | none => cs

/-- The `path` component of `urllib.parse.urlparse`, or `none` when
`urlsplit` raises `ValueError`: after tab/CR/LF removal, strip a valid
scheme before the first `:`; a `//`-introduced netloc runs to the next
`/`, `?` or `#`, and a square bracket inside it raises — mismatched
brackets raise `Invalid IPv6 URL` in every CPython, and since CPython 3.11
a matched bracket pair must hold a numeric IPv6/IPvFuture literal, which
no `fathom.video` host is, so the model treats every bracketed netloc as
raising (exact except for bracketed numeric-IP-literal hosts, which no
claim involves).  The fragment and then the query are cut from the rest.
(`_checknetloc`'s NFKC check raises only for non-ASCII netlocs that
normalization changes; that corner is not modelled.) -/
def urlPathOpt (s : String) : Option String :=
  let cs := stripUnsafe s.data
  let cs := match breakAtChar ':' cs with
    | some (pre, rest) => if validScheme pre then rest else cs
    | none => cs
  if cs.take 2 = ['/', '/'] then
    let netloc := (cs.drop 2).takeWhile (fun c => ¬ (c = '/' ∨ c = '?' ∨ c = '#'))
    let rest := (cs.drop 2).dropWhile (fun c => ¬ (c = '/' ∨ c = '?' ∨ c = '#'))
    if netloc.contains '[' ∨ netloc.contains ']' then none
    else some (String.mk (cutAtChar '?' (cutAtChar '#' rest)))
  else some (String.mk (cutAtChar '?' (cutAtChar '#' cs)))

/-- `extract_recording_id(payload)` of webhook.py.

`now` is `int(time.time())` at the moment the fallback is computed.  The
result is `none` when the Python code raises: `payload.get` on a non-dict
payload (`json.loads` may return any JSON value), `urlparse` on a truthy
non-string `url` field, and `urlsplit`'s `ValueError` on a bracketed
netloc. -/
def extract_recording_id (now : Int) (payload : JVal) : Option String :=
  match payload with
  | .jobj kvs =>
    let url := (alist "url" kvs).getD (.jstr "")
    if truthy url then
      match url with
      | .jstr s =>
        match urlPathOpt s with
        | none => none
        | some path =>
          let segments := splitStr '/' (stripChar '/' path)
          match segments.reverse with
          | last :: pen :: _ =>
            if (pen = "recordings" ∨ pen = "calls") ∧ last ≠ "" then some last
            else some (toString now)
          | _ => some (toString now)
      | _ => none
    else some (toString now)
  | _ => none

/-- Python iteration over a JSON-derived value (`for seg in transcript`):
lists yield their elements, strings their one-character substrings, dicts
their keys; the remaining values raise `TypeError` (`none`). -/
def pyIter : JVal → Option (List JVal)
  | .jarr xs => some xs
  | .jstr s => some (s.data.map (fun c => .jstr (String.singleton c)))
  | .jobj kvs => some (kvs.map (fun kv => .jstr kv.1))
  | _ => none

/-- The speaker-name resolution of `normalize_payload` for one segment
(given as the segment dict's key-value list):
`speaker.get("display_name", "Unknown") if isinstance(speaker, dict) else str(speaker)`
with `speaker = seg.get("speaker", {})`. -/
def resolvedName (seg : List (String × JVal)) : JVal :=
  match (alist "speaker" seg).getD (.jobj []) with
  | .jobj skvs => (alist "display_name" skvs).getD (.jstr "Unknown")
  | v => .jstr (pyStr v)

/-- `resolvedName` lifted to an arbitrary segment value; non-dict segments
are returned unchanged (the normalizer raises on them before any use). -/
def segResolvedName : JVal → JVal
  | .jobj kvs => resolvedName kvs
  | v => v

/-- The participant-deduplication loop of `normalize_payload`: `acc` holds
the already collected names in reverse; membership in the `seen` set is
Python `==`.  `none` models the raised exception: `seg.get` on a non-dict
segment (`AttributeError`) and `name not in seen` on an unhashable name
(`TypeError`). -/
def collectParticipants : List JVal → List JVal → Option (List JVal)
  | [], acc => some acc.reverse
  | seg :: rest, acc =>
    match seg with
    | .jobj kvs =>
      let name := resolvedName kvs
      if hashable name then
        if acc.any (fun x => pyEq x name) then collectParticipants rest acc
        else collectParticipants rest (name :: acc)
      else none
    | _ => none

/-- First-occurrence-order deduplication (Python `==` as the equality),
skipping anything equal to a member of `seen`; `dedupFrom []` is the
deduplicated, order-preserving projection named by the specification. -/
def dedupFrom (seen : List JVal) : List JVal → List JVal
  | [] => []
  | n :: ns =>
    if seen.any (fun x => pyEq x n) then dedupFrom seen ns
    else n :: dedupFrom (n :: seen) ns

/-- `normalize_payload(payload)` of webhook.py: returns the normalized
dict and the recording id; `none` when the Python code raises. -/
def normalize_payload (now : Int) (payload : JVal) : Option (JVal × String) :=
  match extract_recording_id now payload with
  | none => none
  | some recording_id =>
    match payload with
    | .jobj kvs =>
      let transcript := (alist "transcript" kvs).getD (.jarr [])
      match pyIter transcript with
      | none => none
      | some segs =>
        match collectParticipants segs [] with
        | none => none
        | some participants =>
          some (.jobj [
            ("title", (alist "meeting_title" kvs).getD (.jstr "Untitled Meeting")),
            ("date", (alist "created_at" kvs).getD (.jstr "")),
            ("participants", .jarr participants),
            ("transcript", transcript)], recording_id)
    | _ => none

/-- Field of a normalized dict (total projection used only in statements). -/
def fieldOf (norm : JVal) (k : String) : JVal :=
  match norm with
  | .jobj kvs => (alist k kvs).getD .jnull
  | _ => .jnull

/-- The `title` entry of a normalized dict. -/
def titleOf (norm : JVal) : JVal := fieldOf norm "title"

/-- The `date` entry of a normalized dict. -/
def dateOf (norm : JVal) : JVal := fieldOf norm "date"

/-- The `participants` entry of a normalized dict, as a list. -/
def participantsOf (norm : JVal) : List JVal :=
  match fieldOf norm "participants" with
  | .jarr ps => ps
  | _ => []

/-- The `transcript` entry of a normalized dict. -/
def transcriptOf (norm : JVal) : JVal := fieldOf norm "transcript"

-- ---------------------------------------------------------------------------
-- SUBPROCESS ORCHESTRATION (webhook.py lines 183-236)
-- ---------------------------------------------------------------------------

/-- Outcome of one `subprocess.run` call with a timeout: either the process
completed with an exit status and captured output, or the 270s budget
expired (`subprocess.TimeoutExpired` raised by `run`). -/
inductive StepOutcome where
  | completed (returncode : Int) (stdoutText stderrText : String)
  | timedOut

/-- The Python exceptions `do_POST` distinguishes.  `FileNotFoundError` is
a subclass of `OSError = EnvironmentError`, so the handler's first
`except EnvironmentError` clause also catches it; both produce the same
`500 {"error": str(e)}` response, which the embedding reflects. -/
inductive PyExc where
  | environmentError (msg : String)
  | fileNotFoundError (msg : String)
  | calledProcessError (returncode : Int) (stderrText : String)
  | timeoutExpired
  | otherError (msg : String)

/-- The three environment variables `run_pipeline` requires; a missing
variable and an empty one are indistinguishable (`if not env.get(var)`). -/
structure Env where
  GOOGLE_GEMINI_API_KEY : String
  AIRTABLE_API_KEY : String
  AIRTABLE_BASE_ID : String

/-- Results of the external effects one pipeline run performs: the
summarize subprocess, the `Path(summary_path).exists()` check after it,
and the Airtable-logging subprocess. -/
structure PipelineWorld where
  summarizeOutcome : StepOutcome
  summaryFileExists : Bool
  logOutcome : StepOutcome

/-- `run_step(label, cmd, env)` of webhook.py: raises
`subprocess.CalledProcessError` on a non-zero exit status and lets
`subprocess.TimeoutExpired` propagate; output capture and printing have
no bearing on the result. -/
def run_step (label : String) (outcome : StepOutcome) : Except PyExc Unit :=
  match label, outcome with
  | _, .timedOut => .error .timeoutExpired
  | _, .completed rc _ stderrText =>
    if rc ≠ 0 then .error (.calledProcessError rc stderrText) else .ok ()

/-- `summary_path = f"/tmp/.tmp/summary_{recording_id}.json"`. -/
def summaryPathOf (recording_id : String) : String :=
  "/tmp/.tmp/summary_" ++ recording_id ++ ".json"

/-- `run_pipeline(recording_id, transcript_path)` of webhook.py, paired
with the list of subprocess steps actually spawned (in order).  The
environment-variable check precedes both steps; the summary-artifact
existence check sits between them. -/
def run_pipeline (env : Env) (w : PipelineWorld) (recording_id : String)
    (transcript_path : String) : Except PyExc Unit × List String :=
  if env.GOOGLE_GEMINI_API_KEY = "" then
    (.error (.environmentError "Required env var GOOGLE_GEMINI_API_KEY is not set"), [])
  else if env.AIRTABLE_API_KEY = "" then
    (.error (.environmentError "Required env var AIRTABLE_API_KEY is not set"), [])
  else if env.AIRTABLE_BASE_ID = "" then
    (.error (.environmentError "Required env var AIRTABLE_BASE_ID is not set"), [])
  else
    match run_step "summarize_with_gemini" w.summarizeOutcome with
    | .error e => (.error e, ["summarize_with_gemini"])
    | .ok _ =>
      if w.summaryFileExists = false then
        (.error (.fileNotFoundError
          ("Summary file not produced at " ++ summaryPathOf recording_id)),
         ["summarize_with_gemini"])
      else
        match run_step "log_to_airtable" w.logOutcome with
        | .error e => (.error e, ["summarize_with_gemini", "log_to_airtable"])
        | .ok _ => (.ok (), ["summarize_with_gemini", "log_to_airtable"])

-- ---------------------------------------------------------------------------
-- HTTP HANDLER (webhook.py lines 247-337)
-- ---------------------------------------------------------------------------

/-- One inbound POST request: the `Content-Length` header (absent ⇒ the
dict default `0`), the request stream's bytes, and the three signature
headers (each read with the `""` default). -/
structure Request where
  contentLength : Option String
  body : List Nat
  sigHeaders : SigHeaders

/-- Everything outside the request that `do_POST` observes: secret and
clock for verification, a second clock sample for the identifier fallback,
the HMAC primitive, `json.loads` (`none` = `json.JSONDecodeError`),
whether `TMP_DIR.mkdir` succeeds (it sits outside every `try` and can
raise, e.g. when `/tmp/.tmp` exists as a regular file), whether the
transcript write succeeds, and the pipeline's world. -/
structure World where
  secret : String
  now : Int
  nowFallback : Int
  mac : List Nat → String → String
  jsonParse : String → Option JVal
  mkdirOk : Bool
  writeOk : Bool
  env : Env
  pipelineWorld : PipelineWorld

/-- An HTTP response: status code and JSON body. -/
structure Response where
  status : Nat
  body : JVal

/-- `int(self.headers.get("Content-Length", 0))`: `none` when `int()`
raises `ValueError` on a non-integer header value. -/
def parsedContentLength (req : Request) : Option Int :=
  match req.contentLength with
  | none => some 0
  | some s => parseInt s

/-- `self.rfile.read(length)`: at most `length` bytes (a negative count
reads the whole stream). -/
def readBody (req : Request) (length : Int) : List Nat :=
  if length < 0 then req.body else req.body.take length.toNat

/-- A one-entry JSON error body. -/
def jerr (msg : String) : JVal := .jobj [("error", .jstr msg)]

/-- `str(TMP_DIR / f"transcript_{recording_id}.json")`. -/
def transcriptPathOf (recording_id : String) : String :=
  "/tmp/.tmp/transcript_" ++ recording_id ++ ".json"

/-- `handler.do_POST` of webhook.py as a function of the request and the
observed world.  `some r` is the single response written; `none` marks an
exception escaping `do_POST` (non-integer `Content-Length`, a
`UnicodeDecodeError` or `compare_digest` `TypeError` out of
`verify_signature`, `normalize_payload` raising, or `TMP_DIR.mkdir` on
line 284 raising — none of these are caught by the handler). -/
def do_POST (w : World) (req : Request) : Option Response :=
  match parsedContentLength req with
  | none => none
  | some length =>
    if length = 0 then some ⟨400, jerr "Empty body"⟩
    else
      let raw_body := readBody req length
      match verify_signature w.mac w.secret w.now raw_body req.sigHeaders with
      | none => none
      | some false => some ⟨401, jerr "Invalid signature"⟩
      | some true =>
        match utf8Decode raw_body with
        | none => none
        | some bodyText =>
          match w.jsonParse bodyText with
          | none => some ⟨400, jerr "Malformed JSON"⟩
          | some payload =>
            match normalize_payload w.nowFallback payload with
            | none => none
            | some (normalized, recording_id) =>
              if w.mkdirOk = false then none
              else if w.writeOk = false then some ⟨500, jerr "Failed to save transcript"⟩
              else
                match (run_pipeline w.env w.pipelineWorld recording_id
                        (transcriptPathOf recording_id)).1 with
                | .ok _ =>
                  some ⟨200, .jobj [("status", .jstr "ok"),
                                    ("recording_id", .jstr recording_id),
                                    ("title", titleOf normalized)]⟩
                | .error (.environmentError m) => some ⟨500, jerr m⟩
                | .error (.fileNotFoundError m) => some ⟨500, jerr m⟩
                | .error (.calledProcessError _ stderrText) =>
                  some ⟨500, jerr ("Pipeline step failed: " ++ stderrText)⟩
                | .error .timeoutExpired => some ⟨504, jerr "Processing timed out"⟩
                | .error (.otherError _) => some ⟨500, jerr "Unexpected error"⟩

/-- A concrete digest function standing in for the stdlib HMAC primitive in
closed instantiations. -/
def macConst : List Nat → String → String := fun _ _ => "SIG"

/-- A `url` payload field the normalizer survives: absent, falsy, or a
string `urlsplit` parses without raising (a truthy non-string url makes
`urlparse` raise, and a bracketed netloc makes `urlsplit` raise). -/
def urlFieldOK : Option JVal → Bool
  | none => true
  | some (.jstr s) => (urlPathOpt s).isSome
  | some u => !truthy u

/-- A transcript segment the participant loop survives: a dict whose
resolved speaker name is hashable. -/
def wellShapedSeg : JVal → Bool
  | .jobj kvs => hashable (resolvedName kvs)
  | _ => false

/-- A `transcript` payload field the normalizer survives without raising:
absent, or an array of well-shaped segment dicts. -/
def transcriptFieldOK : Option JVal → Bool
  | none => true
  | some (.jarr segs) => segs.all wellShapedSeg
  | some _ => false

/-- Witness payload: three segments spoken by Alice, Bob, Alice. -/
def payAlice : JVal :=
  .jobj [("transcript", .jarr [
    .jobj [("speaker", .jobj [("display_name", .jstr "Alice")]), ("text", .jstr "hi")],
    .jobj [("speaker", .jobj [("display_name", .jstr "Bob")]), ("text", .jstr "yo")],
    .jobj [("speaker", .jobj [("display_name", .jstr "Alice")]), ("text", .jstr "ok")]])]

/-- The normalized dict produced from `payAlice` (at fallback clock 7). -/
def normAlice : JVal :=
  .jobj [("title", .jstr "Untitled Meeting"), ("date", .jstr ""),
         ("participants", .jarr [.jstr "Alice", .jstr "Bob"]),
         ("transcript", .jarr [
           .jobj [("speaker", .jobj [("display_name", .jstr "Alice")]), ("text", .jstr "hi")],
           .jobj [("speaker", .jobj [("display_name", .jstr "Bob")]), ("text", .jstr "yo")],
           .jobj [("speaker", .jobj [("display_name", .jstr "Alice")]), ("text", .jstr "ok")]])]

/-- Witness payload: three segments whose speakers all lack a usable
display name (a dict without `display_name`, an empty dict, and a segment
with no speaker at all). -/
def payUnknown : JVal :=
  .jobj [("meeting_title", .jstr "Sync"), ("transcript", .jarr [
    .jobj [("speaker", .jobj [("x", .jnull)]), ("text", .jstr "a")],
    .jobj [("speaker", .jobj []), ("text", .jstr "b")],
    .jobj [("text", .jstr "c")]])]

/-- The normalized dict produced from `payUnknown` (at fallback clock 7). -/
def normUnknown : JVal :=
  .jobj [("title", .jstr "Sync"), ("date", .jstr ""),
         ("participants", .jarr [.jstr "Unknown"]),
         ("transcript", .jarr [
           .jobj [("speaker", .jobj [("x", .jnull)]), ("text", .jstr "a")],
           .jobj [("speaker", .jobj []), ("text", .jstr "b")],
           .jobj [("text", .jstr "c")]])]

/-- A concrete world for closed handler runs: configured secret, fixed
clocks, the `macConst` digest, a `json.loads` oracle answering faithfully
on the two bodies used (`{}` is the empty dict, `[]` the empty list),
working directory creation and transcript write succeeding, full
credentials, and successful pipeline steps. -/
def wOk : World where
  secret := "whsec_AAAA"
  now := 100
  nowFallback := 42
  mac := macConst
  jsonParse := fun t =>
    if t = "\x7b\x7d" then some (.jobj [])
    else if t = "[]" then some (.jarr [])
    else none
  mkdirOk := true
  writeOk := true
  env := ⟨"g", "a", "b"⟩
  pipelineWorld := ⟨.completed 0 "" "", true, .completed 0 "" ""⟩

/-- A validly signed two-byte request whose body is `{}`. -/
def reqObjBody : Request where
  contentLength := some "2"
  body := [123, 125]
  sigHeaders := ⟨"m1", "100", "v1,SIG"⟩

/-- A validly signed two-byte request whose body is `[]` — a JSON array,
which `normalize_payload` cannot survive. -/
def reqArrBody : Request where
  contentLength := some "2"
  body := [91, 93]
  sigHeaders := ⟨"m1", "100", "v1,SIG"⟩

-- ---------------------------------------------------------------------------
-- Helper lemmas
-- ---------------------------------------------------------------------------

/-- Unfolding value of the tolerance constant. -/
theorem TIMESTAMP_TOLERANCE_eq : TIMESTAMP_TOLERANCE = 300 := rfl

/-- With an ASCII digest and ASCII `v1` entry values (the condition under
which `compare_digest` cannot raise), the entry loop accepts exactly when
some space-separated entry splits at its first comma into the `v1` tag and
the expected digest. -/
theorem checkEntries_some_true_iff (expected : String)
    (hexp : isAsciiStr expected = true) :
    ∀ l : List String, entryValuesAscii l = true →
      (checkEntries expected l = some true ↔
        ∃ e, e ∈ l ∧ ∃ v, firstCommaSplit e = some ("v1", v) ∧ v = expected) := by
  intro l
  induction l with
  | nil => intro _; simp [checkEntries]
  | cons e rest ih =>
    intro hall
    rw [show entryValuesAscii (e :: rest) =
        ((match firstCommaSplit e with
          | some (tag, v) => if tag = "v1" then isAsciiStr v else true
          | none => true) && entryValuesAscii rest) from rfl, Bool.and_eq_true] at hall
    obtain ⟨he, hrest⟩ := hall
    have ihr := ih hrest
    simp only [checkEntries]
    cases hfc : firstCommaSplit e with
    | none =>
      rw [ihr]
      constructor
      · rintro ⟨e2, he2, v, hv, hvexp⟩
        exact ⟨e2, List.mem_cons_of_mem e he2, v, hv, hvexp⟩
      · rintro ⟨e2, he2, v, hv, hvexp⟩
        rcases List.mem_cons.mp he2 with rfl | hmem
        · rw [hfc] at hv
          exact Option.noConfusion hv
        · exact ⟨e2, hmem, v, hv, hvexp⟩
    | some p =>
      obtain ⟨tag, v0⟩ := p
      rw [hfc] at he
      by_cases htag : tag = "v1"
      · subst htag
        have hv0 : isAsciiStr v0 = true := by simpa using he
        show (match compare_digest expected v0 with
              | none => none
              | some true => some true
              | some false => checkEntries expected rest) = some true ↔
          ∃ e2, e2 ∈ e :: rest ∧ ∃ v, firstCommaSplit e2 = some ("v1", v) ∧ v = expected
        rw [show compare_digest expected v0 = some (expected == v0) from by
          simp [compare_digest, hexp, hv0]]
        cases hbe : expected == v0 with
        | true =>
          exact iff_of_true rfl
            ⟨e, List.mem_cons_self e rest, v0, hfc, (eq_of_beq hbe).symm⟩
        | false =>
          show checkEntries expected rest = some true ↔ _
          rw [ihr]
          constructor
          · rintro ⟨e2, he2, v, hv, hvexp⟩
            exact ⟨e2, List.mem_cons_of_mem e he2, v, hv, hvexp⟩
          · rintro ⟨e2, he2, v, hv, hvexp⟩
            rcases List.mem_cons.mp he2 with rfl | hmem
            · rw [hfc] at hv
              injection hv with hpair
              have hval : v0 = v := congrArg Prod.snd hpair
              have hbt : (expected == v0) = true := by
                rw [hval, hvexp]
                exact beq_self_eq_true expected
              rw [hbt] at hbe
              exact Bool.noConfusion hbe
            · exact ⟨e2, hmem, v, hv, hvexp⟩
      · show (if tag = "v1" then
              (match compare_digest expected v0 with
               | none => none
               | some true => some true
               | some false => checkEntries expected rest)
             else checkEntries expected rest) = some true ↔
          ∃ e2, e2 ∈ e :: rest ∧ ∃ v, firstCommaSplit e2 = some ("v1", v) ∧ v = expected
        rw [if_neg htag, ihr]
        constructor
        · rintro ⟨e2, he2, v, hv, hvexp⟩
          exact ⟨e2, List.mem_cons_of_mem e he2, v, hv, hvexp⟩
        · rintro ⟨e2, he2, v, hv, hvexp⟩
          rcases List.mem_cons.mp he2 with rfl | hmem
          · rw [hfc] at hv
            injection hv with hpair
            exact absurd (congrArg Prod.fst hpair) htag
          · exact ⟨e2, hmem, v, hv, hvexp⟩

-- ---------------------------------------------------------------------------
-- C1, C3, C4 — the Signature Verifier
-- ---------------------------------------------------------------------------

/-- C1 amended: with the shared secret configured (and base64-decodable),
all three signature headers present, an in-tolerance integer timestamp,
and — as `hmac.compare_digest` on `str` arguments raises `TypeError` on
non-ASCII input — an ASCII digest and ASCII `v1` entry values,
`verify_signature` returns true iff at least one space-separated entry of
the signature header, split at its first comma only, carries the `v1` tag
and the base64-encoded HMAC-SHA256 (an arbitrary digest function `mac`,
keyed by the decoded secret with the `whsec_` prefix stripped) of
`{webhook-id}.{webhook-timestamp}.{utf-8 body}`.  A non-ASCII `v1` entry
value instead makes the code raise — see the counterexample. -/
theorem verify_signature_accepts_iff
    (mac : List Nat → String → String) (secret_raw : String) (now : Int)
    (raw_body : List Nat) (h : SigHeaders) (ts : Int) (sb : List Nat) (bodyText : String)
    (hsec : secret_raw ≠ "")
    (hid : h.webhookId ≠ "") (hts : h.webhookTimestamp ≠ "") (hsig : h.webhookSignature ≠ "")
    (hparse : parseInt h.webhookTimestamp = some ts)
    (htol : (now - ts).natAbs ≤ TIMESTAMP_TOLERANCE)
    (hdec : b64decode (removePrefixStr secret_raw "whsec_") = some sb)
    (hutf : utf8Decode raw_body = some bodyText)
    (hexp : isAsciiStr
      (mac sb (h.webhookId ++ "." ++ h.webhookTimestamp ++ "." ++ bodyText)) = true)
    (hascii : entryValuesAscii (splitStr ' ' h.webhookSignature) = true) :
    verify_signature mac secret_raw now raw_body h = some true ↔
      ∃ e, e ∈ splitStr ' ' h.webhookSignature ∧ ∃ v,
        firstCommaSplit e = some ("v1", v) ∧
        v = mac sb (h.webhookId ++ "." ++ h.webhookTimestamp ++ "." ++ bodyText) := by
  unfold verify_signature
  rw [if_neg hsec, if_neg (not_or.mpr ⟨hid, not_or.mpr ⟨hts, hsig⟩⟩), hparse]
  simp only [hdec, hutf, if_neg (Nat.not_lt.mpr htol)]
  exact checkEntries_some_true_iff _ hexp _ hascii

/-- C1 counterexample: a header carrying a non-ASCII `v1` entry before a
valid one makes `hmac.compare_digest` raise `TypeError` at line 105, so
`verify_signature` raises instead of returning true although a matching
`v1` entry is present — the claimed iff fails as stated. -/
theorem verify_signature_raises_on_nonascii_entry :
    verify_signature macConst "whsec_AAAA" 100 [104, 105]
      ⟨"m1", "100", "v1,\u00e9 v1,SIG"⟩ = none ∧
    "v1,SIG" ∈ splitStr ' ' "v1,\u00e9 v1,SIG" ∧
    firstCommaSplit "v1,SIG" = some ("v1", "SIG") ∧
    macConst [0, 0, 0] ("m1" ++ "." ++ "100" ++ "." ++ "hi") = "SIG" :=
  ⟨rfl, by decide, by decide, rfl⟩

/-- C1 witness: a header with one stale entry and one valid entry verifies
(secret-rotation support), at a concrete in-tolerance request with ASCII
entry values. -/
theorem verify_signature_accepts_iff_witness :
    verify_signature macConst "whsec_AAAA" 100 [104, 105]
      ⟨"m1", "100", "v1,stale v1,SIG"⟩ = some true :=
  (verify_signature_accepts_iff macConst "whsec_AAAA" 100 [104, 105]
      ⟨"m1", "100", "v1,stale v1,SIG"⟩ 100 [0, 0, 0] "hi"
      (by decide) (by decide) (by decide) (by decide) (by decide)
      (by decide) (by decide) (by decide) (by decide) (by decide)).mpr
    ⟨"v1,SIG", by decide, "SIG", by decide, rfl⟩

/-- C3: the code contradicts its own docstring (`Never raises.`): with the
secret configured and decodable, all headers present and the timestamp in
tolerance, a raw body that is not valid UTF-8 makes
`raw_body.decode("utf-8")` on line 95 raise `UnicodeDecodeError` outside
every `try` block, instead of returning `False`. -/
theorem verify_signature_raises_on_invalid_utf8 :
    verify_signature macConst "whsec_AAAA" 100 [255] ⟨"m1", "100", "v1,x"⟩ = none := rfl

/-- C4: whenever `|now - timestamp|` exceeds 300 seconds the verifier
returns false; at exactly 300 the strict comparison does not reject, and
verification proceeds to the HMAC comparison over the header entries —
the result is exactly the outcome of the entry loop, a boolean or the
`TypeError` a non-ASCII `v1` value raises. -/
theorem verify_signature_timestamp_window
    (mac : List Nat → String → String) (secret_raw : String) (now : Int)
    (raw_body : List Nat) (h : SigHeaders) (ts : Int)
    (hparse : parseInt h.webhookTimestamp = some ts) :
    ((now - ts).natAbs > TIMESTAMP_TOLERANCE →
      verify_signature mac secret_raw now raw_body h = some false) ∧
    ((now - ts).natAbs = TIMESTAMP_TOLERANCE →
      ∀ sb bodyText,
        secret_raw ≠ "" → h.webhookId ≠ "" → h.webhookSignature ≠ "" →
        b64decode (removePrefixStr secret_raw "whsec_") = some sb →
        utf8Decode raw_body = some bodyText →
        verify_signature mac secret_raw now raw_body h =
          checkEntries
            (mac sb (h.webhookId ++ "." ++ h.webhookTimestamp ++ "." ++ bodyText))
            (splitStr ' ' h.webhookSignature)) := by
  constructor
  · intro hgt
    by_cases hs : secret_raw = ""
    · simp [verify_signature, hs]
    · by_cases hh : h.webhookId = "" ∨ h.webhookTimestamp = "" ∨ h.webhookSignature = ""
      · simp [verify_signature, hs, hh]
      · unfold verify_signature
        rw [if_neg hs, if_neg hh, hparse]
        simp only [if_pos hgt]
  · intro heq sb bodyText hs hid hsig hdec hutf
    have hh : ¬ (h.webhookId = "" ∨ h.webhookTimestamp = "" ∨ h.webhookSignature = "") := by
      have hts : h.webhookTimestamp ≠ "" := by
        intro habs
        rw [habs] at hparse
        cases hparse
      exact not_or.mpr ⟨hid, not_or.mpr ⟨hts, hsig⟩⟩
    have hlt : ¬ ((now - ts).natAbs > TIMESTAMP_TOLERANCE) := by
      rw [heq]; exact lt_irrefl _
    unfold verify_signature
    rw [if_neg hs, if_neg hh, hparse]
    simp only [hdec, hutf]
    rw [if_neg hlt]

/-- C4 witness: at `|now - ts| = 900` the verifier rejects; at exactly
`|now - ts| = 300` a valid signature is accepted. -/
theorem verify_signature_timestamp_window_witness :
    verify_signature macConst "whsec_AAAA" 1000 [104, 105] ⟨"m1", "100", "v1,SIG"⟩ = some false ∧
    verify_signature macConst "whsec_AAAA" 400 [104, 105] ⟨"m1", "100", "v1,SIG"⟩ = some true := by
  constructor
  · exact (verify_signature_timestamp_window macConst "whsec_AAAA" 1000 [104, 105]
      ⟨"m1", "100", "v1,SIG"⟩ 100 (by decide)).1 (by decide)
  · rw [(verify_signature_timestamp_window macConst "whsec_AAAA" 400 [104, 105]
      ⟨"m1", "100", "v1,SIG"⟩ 100 (by decide)).2 (by decide) [0, 0, 0] "hi"
      (by decide) (by decide) (by decide) (by decide) (by decide)]
    decide

-- ---------------------------------------------------------------------------
-- C5, C6 — the Pipeline Orchestrator
-- ---------------------------------------------------------------------------

/-- C6: with any of the three required credentials absent or empty,
`run_pipeline` raises `EnvironmentError` naming a required variable and
spawns no subprocess (the step trace is empty). -/
theorem run_pipeline_requires_env (env : Env) (w : PipelineWorld)
    (recording_id transcript_path : String)
    (h : env.GOOGLE_GEMINI_API_KEY = "" ∨ env.AIRTABLE_API_KEY = "" ∨ env.AIRTABLE_BASE_ID = "") :
    (∃ v, v ∈ ["GOOGLE_GEMINI_API_KEY", "AIRTABLE_API_KEY", "AIRTABLE_BASE_ID"] ∧
      (run_pipeline env w recording_id transcript_path).1 =
        .error (.environmentError ("Required env var " ++ v ++ " is not set"))) ∧
    (run_pipeline env w recording_id transcript_path).2 = [] := by
  unfold run_pipeline
  by_cases h1 : env.GOOGLE_GEMINI_API_KEY = ""
  · rw [if_pos h1]
    exact ⟨⟨"GOOGLE_GEMINI_API_KEY", by simp, rfl⟩, rfl⟩
  · rw [if_neg h1]
    by_cases h2 : env.AIRTABLE_API_KEY = ""
    · rw [if_pos h2]
      exact ⟨⟨"AIRTABLE_API_KEY", by simp, rfl⟩, rfl⟩
    · rw [if_neg h2]
      have h3 : env.AIRTABLE_BASE_ID = "" := by
        rcases h with h | h | h
        · exact absurd h h1
        · exact absurd h h2
        · exact h
      rw [if_pos h3]
      exact ⟨⟨"AIRTABLE_BASE_ID", by simp, rfl⟩, rfl⟩

/-- C6 witness: an empty Gemini key fails fast with no step spawned. -/
theorem run_pipeline_requires_env_witness :
    (∃ v, v ∈ ["GOOGLE_GEMINI_API_KEY", "AIRTABLE_API_KEY", "AIRTABLE_BASE_ID"] ∧
      (run_pipeline ⟨"", "a", "b"⟩ ⟨.completed 0 "" "", true, .completed 0 "" ""⟩ "r1" "tp").1 =
        .error (.environmentError ("Required env var " ++ v ++ " is not set"))) ∧
    (run_pipeline ⟨"", "a", "b"⟩ ⟨.completed 0 "" "", true, .completed 0 "" ""⟩ "r1" "tp").2 = [] :=
  run_pipeline_requires_env ⟨"", "a", "b"⟩ ⟨.completed 0 "" "", true, .completed 0 "" ""⟩
    "r1" "tp" (Or.inl rfl)

/-- A completed step with a non-zero exit status raises the stage failure. -/
theorem run_step_fails (label : String) (rc : Int) (outText errText : String)
    (h : rc ≠ 0) :
    run_step label (.completed rc outText errText) =
      .error (.calledProcessError rc errText) := by
  show (if rc ≠ 0 then Except.error (PyExc.calledProcessError rc errText)
        else Except.ok ()) = _
  rw [if_pos h]

/-- A completed step with exit status zero succeeds. -/
theorem run_step_zero (label : String) (outText errText : String) :
    run_step label (.completed 0 outText errText) = .ok () := rfl

/-- A timed-out step raises `subprocess.TimeoutExpired`. -/
theorem run_step_timeout (label : String) :
    run_step label .timedOut = .error .timeoutExpired := rfl

/-- C5: with credentials present, a non-zero summarize exit raises the
stage failure and stops; a zero exit without the summary artifact raises
`FileNotFoundError` and stops; and the persistence step is spawned only
when summarize exited zero and the artifact exists. -/
theorem run_pipeline_stage_order (env : Env) (w : PipelineWorld)
    (recording_id transcript_path : String)
    (hG : env.GOOGLE_GEMINI_API_KEY ≠ "") (hA : env.AIRTABLE_API_KEY ≠ "")
    (hB : env.AIRTABLE_BASE_ID ≠ "") :
    (∀ rc outText errText, w.summarizeOutcome = .completed rc outText errText → rc ≠ 0 →
      (run_pipeline env w recording_id transcript_path).1 =
        .error (.calledProcessError rc errText) ∧
      (run_pipeline env w recording_id transcript_path).2 = ["summarize_with_gemini"]) ∧
    (∀ outText errText, w.summarizeOutcome = .completed 0 outText errText →
      w.summaryFileExists = false →
      (run_pipeline env w recording_id transcript_path).1 =
        .error (.fileNotFoundError
          ("Summary file not produced at " ++ summaryPathOf recording_id)) ∧
      (run_pipeline env w recording_id transcript_path).2 = ["summarize_with_gemini"]) ∧
    ("log_to_airtable" ∈ (run_pipeline env w recording_id transcript_path).2 →
      (∃ outText errText, w.summarizeOutcome = .completed 0 outText errText) ∧
      w.summaryFileExists = true) := by
  refine ⟨?_, ?_, ?_⟩
  · intro rc outText errText hsum hrc
    simp only [run_pipeline, if_neg hG, if_neg hA, if_neg hB, hsum,
      run_step_fails _ rc outText errText hrc]
    exact ⟨by trivial, by trivial⟩
  · intro outText errText hsum hex
    simp only [run_pipeline, if_neg hG, if_neg hA, if_neg hB, hsum,
      run_step_zero, hex, eq_self_iff_true, if_true]
    exact ⟨by trivial, by trivial⟩
  · intro hmem
    cases hso : w.summarizeOutcome with
    | timedOut =>
      rw [show (run_pipeline env w recording_id transcript_path).2 = ["summarize_with_gemini"] by
        simp only [run_pipeline, if_neg hG, if_neg hA, if_neg hB, hso, run_step_timeout]] at hmem
      exact absurd hmem (by decide)
    | completed rc outText errText =>
      by_cases hrc : rc = 0
      · subst hrc
        cases hex : w.summaryFileExists with
        | false =>
          rw [show (run_pipeline env w recording_id transcript_path).2 =
                ["summarize_with_gemini"] by
            simp only [run_pipeline, if_neg hG, if_neg hA, if_neg hB, hso,
              run_step_zero, hex, eq_self_iff_true, if_true]] at hmem
          exact absurd hmem (by decide)
        | true => exact ⟨⟨outText, errText, rfl⟩, rfl⟩
      · rw [show (run_pipeline env w recording_id transcript_path).2 =
              ["summarize_with_gemini"] by
          simp only [run_pipeline, if_neg hG, if_neg hA, if_neg hB, hso,
            run_step_fails _ rc outText errText hrc]] at hmem
        exact absurd hmem (by decide)

/-- C5 witness: a non-zero summarize exit yields the stage failure and the
Airtable step is never spawned. -/
theorem run_pipeline_stage_order_witness :
    (run_pipeline ⟨"g", "a", "b"⟩ ⟨.completed 2 "" "boom", true, .completed 0 "" ""⟩ "r1" "tp").1 =
      .error (.calledProcessError 2 "boom") ∧
    (run_pipeline ⟨"g", "a", "b"⟩ ⟨.completed 2 "" "boom", true, .completed 0 "" ""⟩ "r1" "tp").2 =
      ["summarize_with_gemini"] :=
  (run_pipeline_stage_order ⟨"g", "a", "b"⟩ ⟨.completed 2 "" "boom", true, .completed 0 "" ""⟩
    "r1" "tp" (by decide) (by decide) (by decide)).1 2 "" "boom" rfl (by decide)

-- ---------------------------------------------------------------------------
-- Normalizer helper lemmas
-- ---------------------------------------------------------------------------

/-- `pyEq` classifies equality-with-a-string exactly. -/
theorem pyEq_jstr_iff (x : JVal) (s : String) :
    pyEq x (.jstr s) = true ↔ x = .jstr s := by
  cases x <;> simp [pyEq]

/-- The participant loop computes the first-occurrence deduplication of the
resolved speaker names, relative to the already-seen accumulator. -/
theorem collectParticipants_eq :
    ∀ (segs acc ps : List JVal),
      collectParticipants segs acc = some ps →
      ps = acc.reverse ++ dedupFrom acc (segs.map segResolvedName) := by
  intro segs
  induction segs with
  | nil =>
    intro acc ps h
    simp only [collectParticipants, Option.some.injEq] at h
    simp [dedupFrom, ← h]
  | cons seg rest ih =>
    intro acc ps h
    cases seg with
    | jobj kvs =>
      simp only [collectParticipants] at h
      by_cases hh : hashable (resolvedName kvs) = true
      · rw [if_pos hh] at h
        by_cases hmem : acc.any (fun x => pyEq x (resolvedName kvs)) = true
        · rw [if_pos hmem] at h
          have hrec := ih acc ps h
          simp only [List.map_cons, dedupFrom, segResolvedName, hmem, if_true]
          exact hrec
        · rw [if_neg hmem] at h
          have hrec := ih (resolvedName kvs :: acc) ps h
          rw [Bool.not_eq_true] at hmem
          simp only [List.map_cons, dedupFrom, segResolvedName, hmem, Bool.false_eq_true,
            if_false, List.reverse_cons, List.append_assoc, List.singleton_append] at hrec ⊢
          exact hrec
      · rw [if_neg hh] at h
        cases h
    | jnull => cases h
    | jbool b => cases h
    | jnum n => cases h
    | jstr s => cases h
    | jarr xs => cases h

/-- The participant loop succeeds on well-shaped segments. -/
theorem collectParticipants_total :
    ∀ (segs acc : List JVal), segs.all wellShapedSeg = true →
      ∃ ps, collectParticipants segs acc = some ps := by
  intro segs
  induction segs with
  | nil => intro acc _; exact ⟨acc.reverse, rfl⟩
  | cons seg rest ih =>
    intro acc hall
    rw [List.all_cons, Bool.and_eq_true] at hall
    obtain ⟨hseg, hrest⟩ := hall
    cases seg with
    | jobj kvs =>
      have hh : hashable (resolvedName kvs) = true := by simpa [wellShapedSeg] using hseg
      by_cases hmem : acc.any (fun x => pyEq x (resolvedName kvs)) = true
      · obtain ⟨ps, hps⟩ := ih acc hrest
        refine ⟨ps, ?_⟩
        simp only [collectParticipants, hh, if_true, hmem]
        exact hps
      · obtain ⟨ps, hps⟩ := ih (resolvedName kvs :: acc) hrest
        refine ⟨ps, ?_⟩
        rw [Bool.not_eq_true] at hmem
        simp only [collectParticipants, hh, if_true, hmem, Bool.false_eq_true, if_false]
        exact hps
    | jnull => simp [wellShapedSeg] at hseg
    | jbool b => simp [wellShapedSeg] at hseg
    | jnum n => simp [wellShapedSeg] at hseg
    | jstr s => simp [wellShapedSeg] at hseg
    | jarr xs => simp [wellShapedSeg] at hseg

/-- First-occurrence deduplication keeps at most one value equal to a given
string: none at all if the seen set already covers it, at most one
otherwise. -/
theorem dedupFrom_countP_jstr (s : String) :
    ∀ (ns seen : List JVal),
      (seen.any (fun x => pyEq x (.jstr s)) = true →
        (dedupFrom seen ns).countP (fun x => pyEq x (.jstr s)) = 0) ∧
      (seen.any (fun x => pyEq x (.jstr s)) = false →
        (dedupFrom seen ns).countP (fun x => pyEq x (.jstr s)) ≤ 1) := by
  intro ns
  induction ns with
  | nil => intro seen; simp [dedupFrom]
  | cons n ns ih =>
    intro seen
    constructor
    · intro hseen
      by_cases hc : seen.any (fun x => pyEq x n) = true
      · rw [show dedupFrom seen (n :: ns) = dedupFrom seen ns by
          simp [dedupFrom, hc]]
        exact (ih seen).1 hseen
      · have hneq : pyEq n (.jstr s) = false := by
          rw [← Bool.not_eq_true]
          intro hx
          have hn := (pyEq_jstr_iff n s).mp hx
          obtain ⟨y, hy, hys⟩ := List.any_eq_true.mp hseen
          have hyv := (pyEq_jstr_iff y s).mp hys
          apply hc
          refine List.any_eq_true.mpr ⟨y, hy, ?_⟩
          rw [hyv, hn]
          simp [pyEq]
        rw [Bool.not_eq_true] at hc
        rw [show dedupFrom seen (n :: ns) = n :: dedupFrom (n :: seen) ns by
          simp [dedupFrom, hc]]
        rw [List.countP_cons]
        have htail := (ih (n :: seen)).1 (by rw [List.any_cons, hseen]; simp)
        rw [htail, hneq]
        simp
    · intro hseen
      by_cases hc : seen.any (fun x => pyEq x n) = true
      · rw [show dedupFrom seen (n :: ns) = dedupFrom seen ns by
          simp [dedupFrom, hc]]
        exact (ih seen).2 hseen
      · rw [Bool.not_eq_true] at hc
        rw [show dedupFrom seen (n :: ns) = n :: dedupFrom (n :: seen) ns by
          simp [dedupFrom, hc]]
        rw [List.countP_cons]
        by_cases hn : pyEq n (.jstr s) = true
        · have htail := (ih (n :: seen)).1 (by rw [List.any_cons, hn]; simp)
          rw [htail, hn]
          simp
        · rw [Bool.not_eq_true] at hn
          have htail := (ih (n :: seen)).2 (by rw [List.any_cons, hn, hseen]; simp)
          rw [hn]
          simpa using htail

/-- Inversion of a successful `normalize_payload` run: the payload was a
dict, the identifier came from `extract_recording_id`, the segments from
iterating the transcript field, the participants from the loop, and the
normalized dict has exactly the four constructed entries. -/
theorem normalize_payload_some (now : Int) (payload norm : JVal) (rid : String)
    (h : normalize_payload now payload = some (norm, rid)) :
    ∃ kvs segs ps,
      payload = .jobj kvs ∧
      extract_recording_id now payload = some rid ∧
      pyIter ((alist "transcript" kvs).getD (.jarr [])) = some segs ∧
      collectParticipants segs [] = some ps ∧
      norm = .jobj [
        ("title", (alist "meeting_title" kvs).getD (.jstr "Untitled Meeting")),
        ("date", (alist "created_at" kvs).getD (.jstr "")),
        ("participants", .jarr ps),
        ("transcript", (alist "transcript" kvs).getD (.jarr []))] := by
  cases hE : extract_recording_id now payload with
  | none =>
    simp only [normalize_payload, hE] at h
    exact Option.noConfusion h
  | some rid0 =>
    cases payload with
    | jnull => simp [extract_recording_id] at hE
    | jbool b => simp [extract_recording_id] at hE
    | jnum n => simp [extract_recording_id] at hE
    | jstr s => simp [extract_recording_id] at hE
    | jarr xs => simp [extract_recording_id] at hE
    | jobj kvs =>
      refine ⟨kvs, ?_⟩
      simp only [normalize_payload, hE] at h
      cases hI : pyIter ((alist "transcript" kvs).getD (.jarr [])) with
      | none =>
        simp only [hI] at h
        exact Option.noConfusion h
      | some segs =>
        simp only [hI] at h
        cases hC : collectParticipants segs [] with
        | none =>
          simp only [hC] at h
          exact Option.noConfusion h
        | some ps =>
          simp only [hC, Option.some.injEq] at h
          have hnorm : norm = JVal.jobj [
              ("title", (alist "meeting_title" kvs).getD (.jstr "Untitled Meeting")),
              ("date", (alist "created_at" kvs).getD (.jstr "")),
              ("participants", .jarr ps),
              ("transcript", (alist "transcript" kvs).getD (.jarr []))] :=
            (congrArg Prod.fst h).symm
          have hrid : rid0 = rid := congrArg Prod.snd h
          exact ⟨segs, ps, rfl, congrArg some hrid, rfl, hC, hnorm⟩

-- ---------------------------------------------------------------------------
-- C7, C10 — participant derivation
-- ---------------------------------------------------------------------------

/-- C7: whenever `normalize_payload` returns, the participants list is
exactly the first-occurrence-order deduplicated projection of the resolved
speaker names of the iterated transcript segments, and the transcript
value is passed through verbatim. -/
theorem normalize_payload_participants (now : Int) (payload norm : JVal) (rid : String)
    (h : normalize_payload now payload = some (norm, rid)) :
    ∃ kvs segs, payload = .jobj kvs ∧
      pyIter ((alist "transcript" kvs).getD (.jarr [])) = some segs ∧
      participantsOf norm = dedupFrom [] (segs.map segResolvedName) ∧
      transcriptOf norm = (alist "transcript" kvs).getD (.jarr []) := by
  obtain ⟨kvs, segs, ps, hpay, hE, hI, hC, hnorm⟩ :=
    normalize_payload_some now payload norm rid h
  refine ⟨kvs, segs, hpay, hI, ?_, ?_⟩
  · have hps := collectParticipants_eq segs [] ps hC
    subst hnorm
    simpa [participantsOf, fieldOf, alist] using hps
  · subst hnorm
    simp [transcriptOf, fieldOf, alist]

/-- C7 witness: on the Alice/Bob/Alice payload the participants are
`["Alice", "Bob"]` and the transcript keeps its three segments. -/
theorem normalize_payload_participants_witness :
    (∃ kvs segs, payAlice = JVal.jobj kvs ∧
      pyIter ((alist "transcript" kvs).getD (.jarr [])) = some segs ∧
      participantsOf normAlice = dedupFrom [] (segs.map segResolvedName) ∧
      transcriptOf normAlice = (alist "transcript" kvs).getD (.jarr [])) ∧
    participantsOf normAlice = [.jstr "Alice", .jstr "Bob"] ∧
    ∃ segs3, transcriptOf normAlice = .jarr segs3 ∧ segs3.length = 3 :=
  ⟨normalize_payload_participants 7 payAlice normAlice "7" rfl,
   rfl,
   [.jobj [("speaker", .jobj [("display_name", .jstr "Alice")]), ("text", .jstr "hi")],
    .jobj [("speaker", .jobj [("display_name", .jstr "Bob")]), ("text", .jstr "yo")],
    .jobj [("speaker", .jobj [("display_name", .jstr "Alice")]), ("text", .jstr "ok")]],
   rfl, rfl⟩

/-- C10: a segment whose speaker dict lacks `display_name` resolves to the
literal name `"Unknown"`, and any number of such segments contribute at
most one `"Unknown"` entry to the participants of a normalized payload. -/
theorem normalize_payload_unknown_dedup (segkvs skvs : List (String × JVal))
    (now : Int) (payload norm : JVal) (rid : String) :
    (alist "speaker" segkvs = some (.jobj skvs) → alist "display_name" skvs = none →
      resolvedName segkvs = .jstr "Unknown") ∧
    (normalize_payload now payload = some (norm, rid) →
      (participantsOf norm).countP (fun x => pyEq x (.jstr "Unknown")) ≤ 1) := by
  constructor
  · intro hsp hdn
    simp [resolvedName, hsp, hdn]
  · intro h
    obtain ⟨kvs, segs, ps, hpay, hE, hI, hC, hnorm⟩ :=
      normalize_payload_some now payload norm rid h
    have hps := collectParticipants_eq segs [] ps hC
    have hcount := (dedupFrom_countP_jstr "Unknown" (segs.map segResolvedName) []).2 rfl
    subst hnorm
    have hpart : participantsOf (JVal.jobj [
        ("title", (alist "meeting_title" kvs).getD (.jstr "Untitled Meeting")),
        ("date", (alist "created_at" kvs).getD (.jstr "")),
        ("participants", .jarr ps),
        ("transcript", (alist "transcript" kvs).getD (.jarr []))]) = ps := by
      simp [participantsOf, fieldOf, alist]
    rw [hpart, hps]
    simpa using hcount

/-- C10 witness: three display-name-less segments yield the single
participant `"Unknown"`, whose count is at most one. -/
theorem normalize_payload_unknown_dedup_witness :
    resolvedName [("speaker", .jobj [("x", .jnull)]), ("text", .jstr "a")] = .jstr "Unknown" ∧
    (participantsOf normUnknown).countP (fun x => pyEq x (.jstr "Unknown")) ≤ 1 ∧
    participantsOf normUnknown = [.jstr "Unknown"] :=
  ⟨(normalize_payload_unknown_dedup [("speaker", .jobj [("x", .jnull)]), ("text", .jstr "a")]
      [("x", .jnull)] 7 payUnknown normUnknown "7").1 rfl rfl,
   (normalize_payload_unknown_dedup [("speaker", .jobj [("x", .jnull)]), ("text", .jstr "a")]
      [("x", .jnull)] 7 payUnknown normUnknown "7").2 rfl,
   rfl⟩

-- ---------------------------------------------------------------------------
-- C8, C9 — identifier extraction and normalizer totality
-- ---------------------------------------------------------------------------

/-- A surviving `url` field (absent, falsy, or a string `urlsplit`
parses) always lets `extract_recording_id` return an identifier. -/
theorem extract_some_of_urlFieldOK (now : Int) (kvs : List (String × JVal))
    (hurl : urlFieldOK (alist "url" kvs) = true) :
    ∃ rid, extract_recording_id now (.jobj kvs) = some rid := by
  cases hal : alist "url" kvs with
  | none => exact ⟨toString now, by simp [extract_recording_id, hal, truthy]⟩
  | some u =>
    rw [hal] at hurl
    cases u with
    | jnull => exact ⟨toString now, by simp [extract_recording_id, hal, truthy]⟩
    | jbool b =>
      have hb : b = false := by simpa [urlFieldOK, truthy] using hurl
      exact ⟨toString now, by simp [extract_recording_id, hal, truthy, hb]⟩
    | jnum n =>
      have hn : n = 0 := by simpa [urlFieldOK, truthy] using hurl
      exact ⟨toString now, by simp [extract_recording_id, hal, truthy, hn]⟩
    | jarr xs =>
      have hx : xs.isEmpty = true := by simpa [urlFieldOK, truthy] using hurl
      exact ⟨toString now, by simp [extract_recording_id, hal, truthy, hx]⟩
    | jobj okvs =>
      have hx : okvs.isEmpty = true := by simpa [urlFieldOK, truthy] using hurl
      exact ⟨toString now, by simp [extract_recording_id, hal, truthy, hx]⟩
    | jstr s =>
      by_cases hs : s = ""
      · subst hs
        exact ⟨toString now, by simp [extract_recording_id, hal, truthy]⟩
      · have htr : truthy (.jstr s) = true := by simp [truthy, hs]
        have hp : (urlPathOpt s).isSome = true := by simpa [urlFieldOK] using hurl
        cases hpa : urlPathOpt s with
        | none =>
          rw [hpa] at hp
          exact absurd hp (by decide)
        | some path =>
          simp only [extract_recording_id, hal, Option.getD_some, htr, if_true, hpa]
          cases hrev : (splitStr '/' (stripChar '/' path)).reverse with
          | nil => exact ⟨toString now, rfl⟩
          | cons last tail =>
            cases tail with
            | nil => exact ⟨toString now, rfl⟩
            | cons pen restSegs =>
              by_cases hcond : (pen = "recordings" ∨ pen = "calls") ∧ last ≠ ""
              · exact ⟨last, if_pos hcond⟩
              · exact ⟨toString now, if_neg hcond⟩

/-- C9 amended: for a payload dict whose `url` field is absent, falsy or a
string that `urlsplit` parses, and whose `transcript` field is absent or
an array of well-shaped segment dicts, `normalize_payload` returns without
raising, and missing fields degrade to their defaults: title
`"Untitled Meeting"`, empty date string, and empty participant and segment
lists.  (Payloads outside this shape make the Python code raise — see the
counterexample.) -/
theorem normalize_payload_defaults (now : Int) (kvs : List (String × JVal))
    (hurl : urlFieldOK (alist "url" kvs) = true)
    (htr : transcriptFieldOK (alist "transcript" kvs) = true) :
    ∃ norm rid, normalize_payload now (.jobj kvs) = some (norm, rid) ∧
      (alist "meeting_title" kvs = none → titleOf norm = .jstr "Untitled Meeting") ∧
      (alist "created_at" kvs = none → dateOf norm = .jstr "") ∧
      (alist "transcript" kvs = none →
        participantsOf norm = [] ∧ transcriptOf norm = .jarr []) := by
  obtain ⟨rid, hE⟩ := extract_some_of_urlFieldOK now kvs hurl
  have hseg : ∃ segs, pyIter ((alist "transcript" kvs).getD (.jarr [])) = some segs ∧
      segs.all wellShapedSeg = true := by
    cases hal : alist "transcript" kvs with
    | none => exact ⟨[], rfl, rfl⟩
    | some t =>
      rw [hal] at htr
      cases t with
      | jarr segs => exact ⟨segs, rfl, by simpa [transcriptFieldOK] using htr⟩
      | jnull => simp [transcriptFieldOK] at htr
      | jbool b => simp [transcriptFieldOK] at htr
      | jnum n => simp [transcriptFieldOK] at htr
      | jstr s => simp [transcriptFieldOK] at htr
      | jobj o => simp [transcriptFieldOK] at htr
  obtain ⟨segs, hI, hall⟩ := hseg
  obtain ⟨ps, hC⟩ := collectParticipants_total segs [] hall
  refine ⟨JVal.jobj [
      ("title", (alist "meeting_title" kvs).getD (.jstr "Untitled Meeting")),
      ("date", (alist "created_at" kvs).getD (.jstr "")),
      ("participants", .jarr ps),
      ("transcript", (alist "transcript" kvs).getD (.jarr []))], rid, ?_, ?_, ?_, ?_⟩
  · simp only [normalize_payload, hE, hI, hC]
  · intro hmt
    simp [titleOf, fieldOf, alist, hmt]
  · intro hca
    simp [dateOf, fieldOf, alist, hca]
  · intro htrn
    rw [htrn] at hI
    simp only [Option.getD_none] at hI
    replace hI : some ([] : List JVal) = some segs := hI
    have hsegs : segs = [] := by simpa using hI.symm
    subst hsegs
    replace hC : some ([] : List JVal) = some ps := hC
    have hps : ps = [] := by simpa using hC.symm
    subst hps
    constructor
    · simp [participantsOf, fieldOf, alist]
    · simp [transcriptOf, fieldOf, alist, htrn]

/-- C9 counterexample: a transcript whose segment is not a dict (here the
number 1) makes the participant loop raise `AttributeError` at `seg.get`,
and a url string with a mismatched bracket makes `urlsplit` raise
`ValueError` — in both cases `normalize_payload` raises instead of
degrading to a default. -/
theorem normalize_payload_raises_on_nondict_segment :
    normalize_payload 0 (.jobj [("transcript", .jarr [.jnum 1])]) = none ∧
    normalize_payload 0 (.jobj [("url", .jstr "https://[x/recordings/a")]) = none :=
  ⟨rfl, rfl⟩

/-- C9 witness: the empty payload dict normalizes with every default. -/
theorem normalize_payload_defaults_witness :
    ∃ norm rid, normalize_payload 5 (.jobj []) = some (norm, rid) ∧
      (alist "meeting_title" [] = none → titleOf norm = .jstr "Untitled Meeting") ∧
      (alist "created_at" [] = none → dateOf norm = .jstr "") ∧
      (alist "transcript" [] = none →
        participantsOf norm = [] ∧ transcriptOf norm = .jarr []) :=
  normalize_payload_defaults 5 [] (by decide) (by decide)

-- ---------------------------------------------------------------------------
-- C2 — the Ingress Endpoint status mapping
-- ---------------------------------------------------------------------------

/-- C2 amended: for every POST request that the handler survives without an
unhandled exception — integer Content-Length, signature verification
returning a boolean rather than raising, the parsed payload normalizing
without raising, and `TMP_DIR.mkdir` succeeding — the single response is
determined by the first failing stage in the fixed order: Content-Length 0
gives 400 Empty body; failed signature verification gives 401 Invalid
signature (before JSON parsing, for every `json.loads` behaviour); a JSON
parse failure gives 400 Malformed JSON; a transcript write failure gives
500; a stage timeout gives 504; and full pipeline success gives 200 with
status/recording_id/title.  (A request that makes the handler raise —
e.g. a valid-signature body parsing to a JSON array — produces no
response at all; see the counterexample.) -/
theorem do_POST_status_mapping (w : World) (req : Request) :
    (parsedContentLength req = some 0 →
      do_POST w req = some ⟨400, jerr "Empty body"⟩) ∧
    (∀ L, parsedContentLength req = some L → L ≠ 0 →
      verify_signature w.mac w.secret w.now (readBody req L) req.sigHeaders = some false →
      do_POST w req = some ⟨401, jerr "Invalid signature"⟩) ∧
    (∀ L bodyText, parsedContentLength req = some L → L ≠ 0 →
      verify_signature w.mac w.secret w.now (readBody req L) req.sigHeaders = some true →
      utf8Decode (readBody req L) = some bodyText →
      w.jsonParse bodyText = none →
      do_POST w req = some ⟨400, jerr "Malformed JSON"⟩) ∧
    (∀ L bodyText payload norm rid, parsedContentLength req = some L → L ≠ 0 →
      verify_signature w.mac w.secret w.now (readBody req L) req.sigHeaders = some true →
      utf8Decode (readBody req L) = some bodyText →
      w.jsonParse bodyText = some payload →
      normalize_payload w.nowFallback payload = some (norm, rid) →
      w.mkdirOk = true → w.writeOk = false →
      do_POST w req = some ⟨500, jerr "Failed to save transcript"⟩) ∧
    (∀ L bodyText payload norm rid, parsedContentLength req = some L → L ≠ 0 →
      verify_signature w.mac w.secret w.now (readBody req L) req.sigHeaders = some true →
      utf8Decode (readBody req L) = some bodyText →
      w.jsonParse bodyText = some payload →
      normalize_payload w.nowFallback payload = some (norm, rid) →
      w.mkdirOk = true → w.writeOk = true →
      (run_pipeline w.env w.pipelineWorld rid (transcriptPathOf rid)).1 =
        .error .timeoutExpired →
      do_POST w req = some ⟨504, jerr "Processing timed out"⟩) ∧
    (∀ L bodyText payload norm rid, parsedContentLength req = some L → L ≠ 0 →
      verify_signature w.mac w.secret w.now (readBody req L) req.sigHeaders = some true →
      utf8Decode (readBody req L) = some bodyText →
      w.jsonParse bodyText = some payload →
      normalize_payload w.nowFallback payload = some (norm, rid) →
      w.mkdirOk = true → w.writeOk = true →
      (run_pipeline w.env w.pipelineWorld rid (transcriptPathOf rid)).1 = .ok () →
      do_POST w req = some ⟨200, .jobj [("status", .jstr "ok"),
        ("recording_id", .jstr rid), ("title", titleOf norm)]⟩) := by
  refine ⟨?_, ?_, ?_, ?_, ?_, ?_⟩
  · intro h0
    simp only [do_POST, h0, if_true]
  · intro L hL hL0 hver
    simp only [do_POST, hL]
    rw [if_neg hL0]
    simp only [hver]
  · intro L bodyText hL hL0 hver hutf hjson
    simp only [do_POST, hL]
    rw [if_neg hL0]
    simp only [hver, hutf, hjson]
  · intro L bodyText payload norm rid hL hL0 hver hutf hjson hnorm hmk hw
    simp only [do_POST, hL]
    rw [if_neg hL0]
    simp only [hver, hutf, hjson, hnorm, hmk, Bool.true_eq_false, if_false,
      hw, eq_self_iff_true, if_true]
  · intro L bodyText payload norm rid hL hL0 hver hutf hjson hnorm hmk hw hpipe
    simp only [do_POST, hL]
    rw [if_neg hL0]
    simp only [hver, hutf, hjson, hnorm, hmk, hw, hpipe, Bool.true_eq_false, if_false]
  · intro L bodyText payload norm rid hL hL0 hver hutf hjson hnorm hmk hw hpipe
    simp only [do_POST, hL]
    rw [if_neg hL0]
    simp only [hver, hutf, hjson, hnorm, hmk, hw, hpipe, Bool.true_eq_false, if_false]

/-- C2 counterexample: a request with a valid signature whose body is the
JSON array `[]` parses successfully, but `normalize_payload` raises
(`payload.get` on a list), the exception escapes `do_POST`, and the
handler writes no response at all — no stage of the claimed mapping
produces one. -/
theorem do_POST_no_response_on_array_payload :
    do_POST wOk reqArrBody = none := rfl

/-- C2 witness: a fully successful run of the amended mapping's 200 case
on a validly signed `{}` body: recording id from the fallback clock and
the default title. -/
theorem do_POST_status_mapping_witness :
    do_POST wOk reqObjBody = some ⟨200, .jobj [("status", .jstr "ok"),
      ("recording_id", .jstr "42"), ("title", .jstr "Untitled Meeting")]⟩ :=
  (do_POST_status_mapping wOk reqObjBody).2.2.2.2.2 2 "\x7b\x7d" (.jobj [])
    (.jobj [("title", .jstr "Untitled Meeting"), ("date", .jstr ""),
            ("participants", .jarr []), ("transcript", .jarr [])]) "42"
    rfl (by decide) rfl (by decide) rfl rfl rfl rfl rfl
